import Mathlib

set_option linter.unusedVariables false

/-!
# Verification of the credit-analysis-system stage orchestration engine

A shallow embedding of `backend/graph/state.py`, `backend/graph/edges/routing.py`,
`backend/graph/nodes/decision_node.py` and the error path of
`backend/graph/nodes/legal_node.py`.  Python floats are modelled as rationals
(`ℚ`); Python `dict` fields accessed with `.get(key, default)` are modelled as
`Option` fields read through `Option.getD`; the router functions return the
literal strings `"continue"`, `"reject"`, `"error"` exactly as the source does.
Clock reads (`datetime.now()`) are passed in as explicit parameters.
-/

namespace CreditAnalysis

/-- `ProcessingStatus` from `backend/graph/state.py` (lines 9-25). -/
inductive ProcessingStatus where
  | started
  | validating
  | validation_complete
  | legal_checking
  | legal_check_complete
  | risk_analyzing
  | risk_analysis_complete
  | relevance_checking
  | relevance_check_complete
  | financial_analyzing
  | financial_analysis_complete
  | decision_making
  | completed
  | error
  | rejected
  deriving DecidableEq, Repr

/-- `AgentReasoning` from `state.py`: one audit-trail record. -/
structure AgentReasoning where
  agent : String
  reasoning : String
  timestamp : String
  confidence : Option ℚ
  metadata : List (String × String)
  deriving DecidableEq, Repr

/-- `ValidationResult` from `state.py`. -/
structure ValidationResult where
  status : String
  score : ℚ
  errors : List String
  warnings : List String
  deriving DecidableEq, Repr

/-- The keys of the untyped `details : Dict[str, Any]` mapping that the
routing and decision code reads via `.get(key, default)`; each is optional. -/
structure AnalysisDetails where
  overall_risk_level : Option String := none
  financial_risk_score : Option ℚ := none
  market_risk_score : Option ℚ := none
  operational_risk_score : Option ℚ := none
  market_relevance_score : Option ℚ := none
  innovation_score : Option ℚ := none
  economic_impact_score : Option ℚ := none
  sustainability_score : Option ℚ := none
  debt_to_equity_ratio : Option ℚ := none
  liquidity_ratio : Option ℚ := none
  profitability_score : Option ℚ := none
  cash_flow_score : Option ℚ := none
  financial_stability_score : Option ℚ := none
  relevance_level : Option String := none
  financial_stability_level : Option String := none
  deriving DecidableEq, Repr

/-- `AnalysisResult` from `state.py`: the shared verdict envelope of the
legal, risk, relevance and financial stages. -/
structure AnalysisResult where
  status : String
  score : ℚ
  confidence : ℚ
  summary : String
  details : AnalysisDetails
  recommendations : List String
  risks : List String
  deriving DecidableEq, Repr

/-- `FinalDecision` from `state.py`. -/
structure FinalDecision where
  status : String
  confidence : ℚ
  amount_approved : Option ℚ
  conditions : List String
  reasoning : String
  risk_level : String
  expires_at : Option String
  deriving DecidableEq, Repr

/-- The two keys of `form_data : Dict[str, Any]` read by the decision node
(`requested_amount`, `project_duration_months`), both via `.get(_, 0)`. -/
structure FormData where
  requested_amount : Option ℚ := none
  project_duration_months : Option ℚ := none
  deriving DecidableEq, Repr

/-- `CreditApplicationState` from `state.py` (lines 68-105). -/
structure CreditApplicationState where
  application_id : String
  created_at : String
  form_data : FormData
  pdf_files : List String
  validation_result : Option ValidationResult
  validation_errors : List String
  legal_analysis : Option AnalysisResult
  risk_analysis : Option AnalysisResult
  relevance_analysis : Option AnalysisResult
  financial_analysis : Option AnalysisResult
  agent_reasoning : List AgentReasoning
  final_decision : Option FinalDecision
  current_step : ProcessingStatus
  errors : List String
  warnings : List String
  processing_start_time : String
  processing_end_time : Option String
  total_processing_time : Option ℚ
  deriving DecidableEq, Repr

/-- `create_initial_state` from `state.py` (lines 108-138); `now` stands for
the `datetime.now().isoformat()` read. -/
def create_initial_state (application_id : String) (form_data : FormData)
    (pdf_files : List String) (now : String) : CreditApplicationState where
  application_id := application_id
  created_at := now
  form_data := form_data
  pdf_files := pdf_files
  validation_result := none
  validation_errors := []
  legal_analysis := none
  risk_analysis := none
  relevance_analysis := none
  financial_analysis := none
  agent_reasoning := []
  final_decision := none
  current_step := ProcessingStatus.started
  errors := []
  warnings := []
  processing_start_time := now
  processing_end_time := none
  total_processing_time := none

/-- `add_agent_reasoning` from `state.py` (lines 141-161); `timestamp` stands
for the `datetime.now().isoformat()` read. -/
def add_agent_reasoning (state : CreditApplicationState) (agent_name : String)
    (reasoning : String) (confidence : Option ℚ)
    (metadata : List (String × String)) (timestamp : String) :
    CreditApplicationState :=
  { state with
    agent_reasoning := state.agent_reasoning ++
      [{ agent := agent_name, reasoning := reasoning, timestamp := timestamp,
         confidence := confidence, metadata := metadata }] }

/-- `update_processing_step` from `state.py` (lines 164-187); `now` and
`elapsed` stand for the clock reads used to fill the completion fields. -/
def update_processing_step (state : CreditApplicationState)
    (new_step : ProcessingStatus) (now : String) (elapsed : ℚ) :
    CreditApplicationState :=
  let updated := { state with current_step := new_step }
  if new_step = ProcessingStatus.completed ∨ new_step = ProcessingStatus.error ∨
      new_step = ProcessingStatus.rejected then
    { updated with
      processing_end_time := some now
      total_processing_time := some elapsed }
  else
    updated

/-- `add_error` from `state.py` (lines 190-199). -/
def add_error (state : CreditApplicationState) (e : String) :
    CreditApplicationState :=
  { state with errors := state.errors ++ [e] }

/-- `add_warning` from `state.py` (lines 202-211). -/
def add_warning (state : CreditApplicationState) (w : String) :
    CreditApplicationState :=
  { state with warnings := state.warnings ++ [w] }

/-- Python `str.lower()`, as a structurally recursive map over the
characters (Lean's `Char.toLower`, like the routing code's inputs here,
only involves ASCII case). -/
def pyLower (s : String) : String :=
  ⟨s.data.map Char.toLower⟩

/-- Python `pattern in text` substring membership on character lists,
structurally recursive. -/
def containsSub : List Char → List Char → Bool
  | _, [] => true
  | [], _ :: _ => false
  | c :: ts, p => p.isPrefixOf (c :: ts) || containsSub ts p

/-- Python `pattern in text` substring membership. -/
def strContains (text pattern : String) : Bool :=
  containsSub text.data pattern.data

/-! ## Routing (`backend/graph/edges/routing.py`) -/

/-- `should_continue_after_validation` from `routing.py` (lines 9-59). -/
def should_continue_after_validation (state : CreditApplicationState) : String :=
  match state.validation_result with
  | none => "error"
  | some validation_result =>
    let status := pyLower validation_result.status
    let score := validation_result.score
    let errors := validation_result.errors
    if status = "error" ∨ errors.length > 5 then "reject"
    else if score < 0.6 then "reject"
    else "continue"

/-- `should_continue_after_legal` from `routing.py` (lines 62-118). -/
def should_continue_after_legal (state : CreditApplicationState) : String :=
  match state.legal_analysis with
  | none => "error"
  | some legal_analysis =>
    let status := pyLower legal_analysis.status
    let score := legal_analysis.score
    let confidence := legal_analysis.confidence
    let risks := legal_analysis.risks
    let critical_risks := risks.filter fun risk =>
      strContains (pyLower risk) "критический" ∨ strContains (pyLower risk) "запрет"
    if critical_risks ≠ [] then "reject"
    else if status = "rejected" ∨ status = "failed" ∨ status = "blocked" then
      "reject"
    else if score < 0.5 ∨ confidence < 0.6 then "reject"
    else "continue"

/-- `should_continue_after_risk` from `routing.py` (lines 121-192). -/
def should_continue_after_risk (state : CreditApplicationState) : String :=
  match state.risk_analysis with
  | none => "error"
  | some risk_analysis =>
    let score := risk_analysis.score
    let details := risk_analysis.details
    let risk_level := pyLower (details.overall_risk_level.getD "")
    let financial_risk := details.financial_risk_score.getD 0
    let market_risk := details.market_risk_score.getD 0
    let operational_risk := details.operational_risk_score.getD 0
    if risk_level = "critical" ∨ risk_level = "очень высокий" ∨
        risk_level = "неприемлемый" then "reject"
    else if financial_risk > 0.8 then "reject"
    else
      let high_risk_count :=
        ([financial_risk, market_risk, operational_risk].filter
          fun risk_score => risk_score > 0.7).length
      if high_risk_count ≥ 2 then "reject"
      else if score < 0.4 then "reject"
      else "continue"

/-- `should_continue_after_relevance` from `routing.py` (lines 195-260). -/
def should_continue_after_relevance (state : CreditApplicationState) : String :=
  match state.relevance_analysis with
  | none => "error"
  | some relevance_analysis =>
    let score := relevance_analysis.score
    let details := relevance_analysis.details
    let market_relevance := details.market_relevance_score.getD 0
    let economic_impact := details.economic_impact_score.getD 0
    if market_relevance < 0.3 then "reject"
    else if economic_impact < 0.4 then "reject"
    else if score < 0.5 then "reject"
    else "continue"

/-- `should_continue_after_financial` from `routing.py` (lines 263-336). -/
def should_continue_after_financial (state : CreditApplicationState) : String :=
  match state.financial_analysis with
  | none => "error"
  | some financial_analysis =>
    let score := financial_analysis.score
    let details := financial_analysis.details
    let debt_to_equity := details.debt_to_equity_ratio.getD 0
    let liquidity_ratio := details.liquidity_ratio.getD 0
    let cash_flow_score := details.cash_flow_score.getD 0
    let financial_stability := details.financial_stability_score.getD 0
    if debt_to_equity > 3.0 then "reject"
    else if liquidity_ratio < 0.5 then "reject"
    else if cash_flow_score < 0.3 then "reject"
    else if financial_stability < 0.4 then "reject"
    else if score < 0.5 then "reject"
    else "continue"

/-! ## Decision node (`backend/graph/nodes/decision_node.py`) -/

/-- The `"validation"` entry of the dict built by `aggregate_analysis_results`. -/
structure AggValidation where
  completed : Bool
  score : ℚ
  status : String
  errors_count : ℕ
  warnings_count : ℕ
  deriving DecidableEq, Repr

/-- The `"legal"` entry of the dict built by `aggregate_analysis_results`. -/
structure AggLegal where
  completed : Bool
  score : ℚ
  status : String
  risks_count : ℕ
  deriving DecidableEq, Repr

/-- The `"risk"` entry of the dict built by `aggregate_analysis_results`. -/
structure AggRisk where
  completed : Bool
  score : ℚ
  status : String
  risk_level : String
  risks_count : ℕ
  deriving DecidableEq, Repr

/-- The `"relevance"` entry of the dict built by `aggregate_analysis_results`. -/
structure AggRelevance where
  completed : Bool
  score : ℚ
  status : String
  relevance_level : String
  deriving DecidableEq, Repr

/-- The `"financial"` entry of the dict built by `aggregate_analysis_results`. -/
structure AggFinancial where
  completed : Bool
  score : ℚ
  status : String
  stability_level : String
  deriving DecidableEq, Repr

/-- The dict built by `aggregate_analysis_results` (`decision_node.py`
lines 118-219). -/
structure AggregatedResults where
  validation : AggValidation
  legal : AggLegal
  risk : AggRisk
  relevance : AggRelevance
  financial : AggFinancial
  overall_completion : ℚ
  deriving DecidableEq, Repr

/-- `aggregate_analysis_results` from `decision_node.py` (lines 118-219). -/
def aggregate_analysis_results (state : CreditApplicationState) :
    AggregatedResults :=
  let validation : AggValidation :=
    match state.validation_result with
    | some v =>
      { completed := true, score := v.score, status := v.status,
        errors_count := v.errors.length, warnings_count := v.warnings.length }
    | none =>
      { completed := false, score := 0, status := "not_completed",
        errors_count := 0, warnings_count := 0 }
  let legal : AggLegal :=
    match state.legal_analysis with
    | some l =>
      { completed := true, score := l.score, status := l.status,
        risks_count := l.risks.length }
    | none =>
      { completed := false, score := 0, status := "not_completed",
        risks_count := 0 }
  let risk : AggRisk :=
    match state.risk_analysis with
    | some r =>
      { completed := true, score := r.score, status := r.status,
        risk_level := r.details.overall_risk_level.getD "unknown",
        risks_count := r.risks.length }
    | none =>
      { completed := false, score := 0, status := "not_completed",
        risk_level := "unknown", risks_count := 0 }
  let relevance : AggRelevance :=
    match state.relevance_analysis with
    | some r =>
      { completed := true, score := r.score, status := r.status,
        relevance_level := r.details.relevance_level.getD "unknown" }
    | none =>
      { completed := false, score := 0, status := "not_completed",
        relevance_level := "unknown" }
  let financial : AggFinancial :=
    match state.financial_analysis with
    | some f =>
      { completed := true, score := f.score, status := f.status,
        stability_level := f.details.financial_stability_level.getD "unknown" }
    | none =>
      { completed := false, score := 0, status := "not_completed",
        stability_level := "unknown" }
  let completed_analyses : ℚ :=
    (if state.validation_result.isSome then 1 else 0) +
    (if state.legal_analysis.isSome then 1 else 0) +
    (if state.risk_analysis.isSome then 1 else 0) +
    (if state.relevance_analysis.isSome then 1 else 0) +
    (if state.financial_analysis.isSome then 1 else 0)
  { validation := validation, legal := legal, risk := risk,
    relevance := relevance, financial := financial,
    overall_completion := completed_analyses / 5 }

/-- `calculate_risk_adjustments` from `decision_node.py` (lines 294-334). -/
def calculate_risk_adjustments (aggregated_results : AggregatedResults) : ℚ :=
  let adjustments : ℚ := 0
  let adjustments :=
    if aggregated_results.validation.completed then
      if aggregated_results.validation.errors_count > 5 then adjustments - 0.2
      else if aggregated_results.validation.errors_count > 2 then
        adjustments - 0.1
      else adjustments
    else adjustments
  let adjustments :=
    if aggregated_results.legal.completed ∧
        (aggregated_results.legal.status = "rejected" ∨
         aggregated_results.legal.status = "blocked") then
      adjustments - 0.3
    else adjustments
  let adjustments :=
    if aggregated_results.risk.completed then
      if aggregated_results.risk.risk_level = "critical" then adjustments - 0.4
      else if aggregated_results.risk.risk_level = "high" then
        adjustments - 0.2
      else adjustments
    else adjustments
  let adjustments :=
    if aggregated_results.relevance.completed ∧
        aggregated_results.relevance.relevance_level = "very_low" then
      adjustments - 0.15
    else adjustments
  let adjustments :=
    if aggregated_results.financial.completed then
      if aggregated_results.financial.stability_level = "poor" then
        adjustments - 0.3
      else if aggregated_results.financial.stability_level = "weak" then
        adjustments - 0.15
      else adjustments
    else adjustments
  adjustments

/-- The dict built by `calculate_overall_scoring`. -/
structure Scoring where
  component_scores : List (String × ℚ)
  weighted_scores : List (String × ℚ)
  overall_score : ℚ
  completion_penalty : ℚ
  risk_adjustments : ℚ
  score_category : String
  deriving DecidableEq, Repr

/-- `calculate_overall_scoring` from `decision_node.py` (lines 222-291).
The per-stage weight table is the dict literal at lines 226-232. -/
def calculate_overall_scoring (aggregated_results : AggregatedResults) :
    Scoring :=
  let weights : List (String × Bool × ℚ × ℚ) :=
    [("validation", aggregated_results.validation.completed,
      aggregated_results.validation.score, 0.15),
     ("legal", aggregated_results.legal.completed,
      aggregated_results.legal.score, 0.20),
     ("risk", aggregated_results.risk.completed,
      aggregated_results.risk.score, 0.25),
     ("relevance", aggregated_results.relevance.completed,
      aggregated_results.relevance.score, 0.15),
     ("financial", aggregated_results.financial.completed,
      aggregated_results.financial.score, 0.25)]
  let component_scores := weights.map fun (n, c, s, _) =>
    (n, if c then s else 0)
  let weighted_scores := weights.map fun (n, c, s, w) =>
    (n, if c then s * w else 0)
  let weighted_sum : ℚ := (weights.map fun (_, c, s, w) =>
    if c then s * w else 0).sum
  let total_weight : ℚ := (weights.map fun (_, c, _, w) =>
    if c then w else 0).sum
  let base_score := if total_weight > 0 then weighted_sum / total_weight else 0
  let completion_ratio := aggregated_results.overall_completion
  let completion_penalty :=
    if completion_ratio < 1 then (1 - completion_ratio) * 0.3 else 0
  let base_score :=
    if completion_ratio < 1 then base_score * (1 - completion_penalty)
    else base_score
  let risk_adjustments := calculate_risk_adjustments aggregated_results
  let final_score := max 0 (min 1 (base_score + risk_adjustments))
  let score_category :=
    if final_score ≥ 0.8 then "excellent"
    else if final_score ≥ 0.7 then "good"
    else if final_score ≥ 0.6 then "acceptable"
    else if final_score ≥ 0.4 then "poor"
    else "unacceptable"
  { component_scores := component_scores, weighted_scores := weighted_scores,
    overall_score := final_score, completion_penalty := completion_penalty,
    risk_adjustments := risk_adjustments, score_category := score_category }

/-- The dict built by `apply_decision_logic`. -/
structure DecisionLogic where
  preliminary_status : String
  confidence : ℚ
  decision_factors : List String
  blocking_factors : List String
  approval_factors : List String
  conditional_factors : List String
  deriving DecidableEq, Repr

/-- The `blocking_factors` list built by `apply_decision_logic`
(`decision_node.py` lines 356-379). -/
def blocking_factors_of (aggregated_results : AggregatedResults) :
    List String :=
  (if aggregated_results.validation.completed ∧
      aggregated_results.validation.errors_count > 7 then
    ["Критические ошибки валидации"] else []) ++
  (if aggregated_results.legal.completed ∧
      (aggregated_results.legal.status = "rejected" ∨
       aggregated_results.legal.status = "blocked") then
    ["Юридические препятствия"] else []) ++
  (if aggregated_results.risk.completed ∧
      aggregated_results.risk.risk_level = "critical" then
    ["Неприемлемый уровень риска"] else []) ++
  (if aggregated_results.financial.completed ∧
      aggregated_results.financial.stability_level = "poor" then
    ["Критическое финансовое состояние"] else [])

/-- The `approval_factors` list built by `apply_decision_logic`
(`decision_node.py` lines 387-403). -/
def approval_factors_of (aggregated_results : AggregatedResults)
    (overall_score : ℚ) : List String :=
  (if overall_score ≥ 0.8 then ["Отличная общая оценка"]
   else if overall_score ≥ 0.7 then ["Хорошая общая оценка"] else []) ++
  (if aggregated_results.financial.completed ∧
      (aggregated_results.financial.stability_level = "excellent" ∨
       aggregated_results.financial.stability_level = "good") then
    ["Отличная финансовая устойчивость"] else []) ++
  (if aggregated_results.legal.completed ∧
      aggregated_results.legal.score ≥ 0.8 then
    ["Отличная юридическая чистота"] else [])

/-- The `conditional_factors` list built by `apply_decision_logic`
(`decision_node.py` lines 405-419). -/
def conditional_factors_of (aggregated_results : AggregatedResults) :
    List String :=
  (if aggregated_results.risk.completed ∧
      aggregated_results.risk.risk_level = "high" then
    ["Повышенные риски - требуются дополнительные условия"] else []) ++
  (if aggregated_results.financial.completed ∧
      aggregated_results.financial.stability_level = "weak" then
    ["Слабая финансовая устойчивость"] else []) ++
  (if aggregated_results.overall_completion < 1 then ["Неполный анализ"]
   else [])

/-- `apply_decision_logic` from `decision_node.py` (lines 337-438).
`form_data` is a parameter of the source function but is not read by it. -/
def apply_decision_logic (aggregated_results : AggregatedResults)
    (overall_scoring : Scoring) (form_data : FormData) : DecisionLogic :=
  let overall_score := overall_scoring.overall_score
  let blocking_factors := blocking_factors_of aggregated_results
  if blocking_factors ≠ [] then
    { preliminary_status := "rejected", confidence := 0.9,
      decision_factors := [], blocking_factors := blocking_factors,
      approval_factors := [], conditional_factors := [] }
  else
    let approval_factors := approval_factors_of aggregated_results
      overall_score
    let conditional_factors := conditional_factors_of aggregated_results
    let statusConfidence : String × ℚ :=
      if overall_score ≥ 0.7 ∧ conditional_factors = [] then ("approved", 0.9)
      else if overall_score ≥ 0.6 ∧ conditional_factors.length ≤ 2 then
        ("approved", 0.7)
      else if overall_score ≥ 0.5 then ("conditional", 0.6)
      else if overall_score ≥ 0.3 then ("requires_review", 0.5)
      else ("rejected", 0.8)
    { preliminary_status := statusConfidence.1,
      confidence := statusConfidence.2, decision_factors := [],
      blocking_factors := [], approval_factors := approval_factors,
      conditional_factors := conditional_factors }

/-- The dict built by `determine_credit_conditions`. -/
structure CreditConditions where
  approved_amount : ℚ
  approval_ratio : ℚ
  interest_rate_adjustment : ℚ
  term_adjustment_months : ℤ
  additional_conditions : List String
  guarantees_required : List String
  monitoring_requirements : List String
  deriving DecidableEq, Repr

/-- `determine_credit_conditions` from `decision_node.py` (lines 441-532). -/
def determine_credit_conditions (decision_logic : DecisionLogic)
    (form_data : FormData) (aggregated_results : AggregatedResults) :
    CreditConditions :=
  let requested_amount := form_data.requested_amount.getD 0
  if decision_logic.preliminary_status = "approved" ∨
      decision_logic.preliminary_status = "conditional" then
    let stability := aggregated_results.financial.stability_level
    let base1 : ℚ :=
      if aggregated_results.financial.completed then
        if stability = "excellent" then 1.0
        else if stability = "good" then 0.95
        else if stability = "acceptable" then 0.85
        else if stability = "weak" then 0.7
        else 1.0
      else 1.0
    let add1 : List String :=
      if aggregated_results.financial.completed ∧ stability = "weak" then
        ["Ежемесячная финансовая отчетность"] else []
    let mon1 : List String :=
      if aggregated_results.financial.completed ∧ stability = "weak" then
        ["Усиленный мониторинг финансового состояния"] else []
    let risk_level := aggregated_results.risk.risk_level
    let base2 :=
      if aggregated_results.risk.completed then
        if risk_level = "high" then base1 * 0.8
        else if risk_level = "medium" then base1 * 0.9
        else base1
      else base1
    let rate : ℚ :=
      if aggregated_results.risk.completed then
        if risk_level = "high" then 1.5
        else if risk_level = "medium" then 0.5
        else 0
      else 0
    let guar1 : List String :=
      if aggregated_results.risk.completed ∧ risk_level = "high" then
        ["Дополнительное обеспечение"] else []
    let add2 : List String :=
      if aggregated_results.legal.completed ∧
          aggregated_results.legal.score < 0.7 then
        ["Устранение выявленных юридических замечаний"] else []
    let guar2 : List String :=
      if aggregated_results.legal.completed ∧
          aggregated_results.legal.score < 0.7 then
        ["Поручительство учредителей"] else []
    let base3 :=
      if aggregated_results.relevance.completed ∧
          aggregated_results.relevance.relevance_level = "low" then
        base2 * 0.85
      else base2
    let add3 : List String :=
      if aggregated_results.relevance.completed ∧
          aggregated_results.relevance.relevance_level = "low" then
        ["Детализация маркетинговой стратегии"] else []
    let approval_ratio := min 1 base3
    let approved_amount := requested_amount * approval_ratio
    let term_adjustment_months : ℤ :=
      if aggregated_results.financial.completed ∧
          aggregated_results.financial.stability_level = "weak" then
        -12
      else 0
    let extras : List String × List String :=
      if decision_logic.preliminary_status = "conditional" then
        (["Предоставление дополнительной отчетности",
          "Соблюдение финансовых ковенантов"],
         ["Квартальные отчеты о ходе проекта",
          "Мониторинг целевого использования средств"])
      else ([], [])
    { approved_amount := approved_amount, approval_ratio := approval_ratio,
      interest_rate_adjustment := rate,
      term_adjustment_months := term_adjustment_months,
      additional_conditions := add1 ++ add2 ++ add3 ++ extras.1,
      guarantees_required := guar1 ++ guar2,
      monitoring_requirements := mon1 ++ extras.2 }
  else
    { approved_amount := 0, approval_ratio := 0,
      interest_rate_adjustment := 0, term_adjustment_months := 0,
      additional_conditions := [], guarantees_required := [],
      monitoring_requirements := [] }

/-- The result shape of the external `perform_llm_decision_review` call
(`decision_node.py` lines 632-652): the qualitative-review input to
`finalize_decision`, quantified over in the theorems below. -/
structure LLMReview where
  status : String
  validation : String
  confidence : ℚ
  recommended_adjustments : List String
  additional_conditions : List String
  risk_concerns : List String
  deriving DecidableEq, Repr

/-- `determine_overall_risk_level` from `decision_node.py` (lines 712-759). -/
def determine_overall_risk_level (aggregated_results : AggregatedResults) :
    String :=
  let risk_factors : List String :=
    (if aggregated_results.validation.completed ∧
        aggregated_results.validation.errors_count > 3 then ["high"]
     else []) ++
    (if aggregated_results.legal.completed then
      if aggregated_results.legal.score < 0.5 then ["high"]
      else if aggregated_results.legal.score < 0.7 then ["medium"]
      else []
     else []) ++
    (if aggregated_results.risk.completed then
      if aggregated_results.risk.risk_level = "critical" then ["critical"]
      else if aggregated_results.risk.risk_level = "high" then ["high"]
      else if aggregated_results.risk.risk_level = "medium" then ["medium"]
      else []
     else []) ++
    (if aggregated_results.financial.completed then
      if aggregated_results.financial.stability_level = "poor" then ["high"]
      else if aggregated_results.financial.stability_level = "weak" then
        ["medium"]
      else []
     else []) ++
    (if aggregated_results.relevance.completed ∧
        aggregated_results.relevance.relevance_level = "very_low" then
      ["medium"]
     else [])
  if "critical" ∈ risk_factors then "critical"
  else if risk_factors.count "high" ≥ 2 then "high"
  else if "high" ∈ risk_factors ∨ risk_factors.count "medium" ≥ 3 then "medium"
  else if "medium" ∈ risk_factors then "low"
  else "minimal"

/-- `create_decision_justification` from `decision_node.py` (lines 762-841),
with Python numeric string formatting (`:.2f`, `:.0%`) rendered via
`toString` on the rational values. -/
def create_decision_justification (final_status : String)
    (aggregated_results : AggregatedResults) (decision_logic : DecisionLogic)
    (credit_conditions : CreditConditions) (llm_review : LLMReview) : String :=
  let head : List String :=
    if final_status = "approved" then
      ["✅ РЕШЕНИЕ: Заявка ОДОБРЕНА",
       "Заявка прошла все этапы анализа с положительными результатами."]
    else if final_status = "conditional" then
      ["⚠️ РЕШЕНИЕ: Заявка одобрена УСЛОВНО",
       "Заявка может быть одобрена при выполнении дополнительных условий."]
    else if final_status = "requires_review" then
      ["🔍 РЕШЕНИЕ: Требуется РУЧНАЯ ПРОВЕРКА",
       "Заявка требует дополнительного анализа специалистами."]
    else
      ["❌ РЕШЕНИЕ: Заявка ОТКЛОНЕНА",
       "Выявлены критические риски, препятствующие кредитованию."]
  let completion :=
    ["\n📊 Завершенность анализа: " ++
      toString aggregated_results.overall_completion]
  let stageLines : List String :=
    (if aggregated_results.validation.completed then
      ["✓ Валидация: " ++ toString aggregated_results.validation.score]
     else []) ++
    (if aggregated_results.legal.completed then
      ["✓ Юридическая проверка: " ++ toString aggregated_results.legal.score]
     else []) ++
    (if aggregated_results.risk.completed then
      ["✓ Анализ рисков: " ++ toString aggregated_results.risk.score ++
       " (уровень: " ++ aggregated_results.risk.risk_level ++ ")"]
     else []) ++
    (if aggregated_results.relevance.completed then
      ["✓ Актуальность: " ++ toString aggregated_results.relevance.score]
     else []) ++
    (if aggregated_results.financial.completed then
      ["✓ Финансовый анализ: " ++ toString aggregated_results.financial.score ++
       " (устойчивость: " ++ aggregated_results.financial.stability_level ++ ")"]
     else [])
  let factorLines : List String :=
    (if decision_logic.approval_factors ≠ [] then
      ["\n✅ Факторы одобрения:"] ++
        decision_logic.approval_factors.map (fun factor => "  • " ++ factor)
     else []) ++
    (if decision_logic.blocking_factors ≠ [] then
      ["\n❌ Блокирующие факторы:"] ++
        decision_logic.blocking_factors.map (fun factor => "  • " ++ factor)
     else []) ++
    (if decision_logic.conditional_factors ≠ [] then
      ["\n⚠️ Условные факторы:"] ++
        decision_logic.conditional_factors.map (fun factor => "  • " ++ factor)
     else [])
  let amountLines : List String :=
    if (final_status = "approved" ∨ final_status = "conditional") ∧
        credit_conditions.approved_amount ≠ 0 then
      ["\n💰 Одобренная сумма: " ++
        toString credit_conditions.approved_amount ++ " тенге (" ++
        toString credit_conditions.approval_ratio ++ " от запрашиваемой)"] ++
      (if credit_conditions.interest_rate_adjustment > 0 then
        ["📈 Корректировка ставки: +" ++
          toString credit_conditions.interest_rate_adjustment ++ "%"]
       else [])
    else []
  let llmLines : List String :=
    if llm_review.risk_concerns ≠ [] then
      ["\n🔍 Дополнительные замечания:"] ++
        (llm_review.risk_concerns.take 3).map (fun concern => "  • " ++ concern)
    else []
  String.intercalate "\n"
    (head ++ completion ++ stageLines ++ factorLines ++ amountLines ++ llmLines)

/-- `finalize_decision` from `decision_node.py` (lines 655-709).
`now_plus_30` stands for `(datetime.now() + timedelta(days=30)).isoformat()`;
Python's `list(set(all_conditions))[:10]` (deduplicate, cap at 10) is
rendered with `List.eraseDups` followed by `List.take 10`. -/
def finalize_decision (decision_logic : DecisionLogic)
    (credit_conditions : CreditConditions) (llm_review : LLMReview)
    (aggregated_results : AggregatedResults) (now_plus_30 : String) :
    FinalDecision :=
  let final_status := decision_logic.preliminary_status
  let confidence := decision_logic.confidence
  let llm_validation := llm_review.validation
  let statusConfidence : String × ℚ :=
    if llm_validation = "rejected" ∧ final_status = "approved" then
      ("requires_review", confidence * 0.7)
    else if llm_validation = "approved" ∧ final_status = "requires_review" then
      ("conditional", confidence * 1.1)
    else (final_status, confidence)
  let final_status := statusConfidence.1
  let confidence := statusConfidence.2
  let risk_level := determine_overall_risk_level aggregated_results
  let all_conditions :=
    credit_conditions.additional_conditions ++
    credit_conditions.guarantees_required ++
    credit_conditions.monitoring_requirements ++
    llm_review.additional_conditions
  let expires_at :=
    if final_status = "approved" ∨ final_status = "conditional" then
      some now_plus_30
    else none
  let reasoning := create_decision_justification final_status
    aggregated_results decision_logic credit_conditions llm_review
  { status := final_status,
    confidence := min 1 confidence,
    amount_approved :=
      if final_status ≠ "rejected" then some credit_conditions.approved_amount
      else none,
    conditions := all_conditions.eraseDups.take 10,
    reasoning := reasoning,
    risk_level := risk_level,
    expires_at := expires_at }

/-- `create_decision_reasoning` from `decision_node.py` (lines 844-908),
with Python numeric string formatting rendered via `toString`. -/
def create_decision_reasoning (final_decision : FinalDecision)
    (aggregated_results : AggregatedResults) (overall_scoring : Scoring) :
    String :=
  let status := final_decision.status
  let head :=
    if status = "approved" then
      "✅ ФИНАЛЬНОЕ РЕШЕНИЕ: ЗАЯВКА ОДОБРЕНА (уверенность: " ++
        toString final_decision.confidence ++ ")"
    else if status = "conditional" then
      "⚠️ ФИНАЛЬНОЕ РЕШЕНИЕ: УСЛОВНОЕ ОДОБРЕНИЕ (уверенность: " ++
        toString final_decision.confidence ++ ")"
    else if status = "requires_review" then
      "🔍 ФИНАЛЬНОЕ РЕШЕНИЕ: ТРЕБУЕТСЯ ПРОВЕРКА (уверенность: " ++
        toString final_decision.confidence ++ ")"
    else
      "❌ ФИНАЛЬНОЕ РЕШЕНИЕ: ЗАЯВКА ОТКЛОНЕНА (уверенность: " ++
        toString final_decision.confidence ++ ")"
  let riskLine := "🎯 Общий уровень риска: " ++ final_decision.risk_level
  let scoreLine := "\n📊 ОБЩИЙ СКОРИНГ: " ++
    toString overall_scoring.overall_score ++ " (" ++
    overall_scoring.score_category ++ ")"
  let componentHead := "\n📋 Результаты анализа по компонентам:"
  let componentLines : List String :=
    [(if aggregated_results.validation.completed then
        "  ✓ Validation: " ++ toString aggregated_results.validation.score ++
          " (" ++ aggregated_results.validation.status ++ ")"
      else "  ✗ Validation: НЕ ЗАВЕРШЕН"),
     (if aggregated_results.legal.completed then
        "  ✓ Legal: " ++ toString aggregated_results.legal.score ++
          " (" ++ aggregated_results.legal.status ++ ")"
      else "  ✗ Legal: НЕ ЗАВЕРШЕН"),
     (if aggregated_results.risk.completed then
        "  ✓ Risk: " ++ toString aggregated_results.risk.score ++
          " (" ++ aggregated_results.risk.status ++ ")"
      else "  ✗ Risk: НЕ ЗАВЕРШЕН"),
     (if aggregated_results.relevance.completed then
        "  ✓ Relevance: " ++ toString aggregated_results.relevance.score ++
          " (" ++ aggregated_results.relevance.status ++ ")"
      else "  ✗ Relevance: НЕ ЗАВЕРШЕН"),
     (if aggregated_results.financial.completed then
        "  ✓ Financial: " ++ toString aggregated_results.financial.score ++
          " (" ++ aggregated_results.financial.status ++ ")"
      else "  ✗ Financial: НЕ ЗАВЕРШЕН")]
  let amountLines : List String :=
    match final_decision.amount_approved with
    | some amount =>
      if amount ≠ 0 then
        ["\n💰 Одобренная сумма: " ++ toString amount ++ " тенге"]
      else []
    | none => []
  let conditionLines : List String :=
    if final_decision.conditions ≠ [] then
      ["\n📋 Условия кредитования (" ++
        toString final_decision.conditions.length ++ "):"] ++
      (final_decision.conditions.take 5).map
        (fun condition => "  • " ++ condition) ++
      (if final_decision.conditions.length > 5 then
        ["  • ... и еще " ++ toString (final_decision.conditions.length - 5) ++
          " условий"]
       else [])
    else []
  let expiresLines : List String :=
    match final_decision.expires_at with
    | some expires => ["\n⏰ Решение действительно до: " ++ expires]
    | none => []
  let tail := ["\n📝 ОБОСНОВАНИЕ:", final_decision.reasoning]
  String.intercalate "\n"
    ([head, riskLine, scoreLine, componentHead] ++ componentLines ++
      amountLines ++ conditionLines ++ expiresLines ++ tail)

/-- The success path of `decision_node` from `decision_node.py` (lines 13-97):
steps 1-10 of the try block.  `llm_review` is the result of the external
`perform_llm_decision_review` call; `now`, `elapsed`, `reasoning_timestamp`
and `now_plus_30` stand for the node's clock reads. -/
def decision_node (state : CreditApplicationState) (llm_review : LLMReview)
    (now : String) (elapsed : ℚ) (reasoning_timestamp : String)
    (now_plus_30 : String) : CreditApplicationState :=
  let state := update_processing_step state ProcessingStatus.decision_making
    now elapsed
  let aggregated_results := aggregate_analysis_results state
  let overall_scoring := calculate_overall_scoring aggregated_results
  let decision_logic := apply_decision_logic aggregated_results overall_scoring
    state.form_data
  let credit_conditions := determine_credit_conditions decision_logic
    state.form_data aggregated_results
  let final_decision := finalize_decision decision_logic credit_conditions
    llm_review aggregated_results now_plus_30
  let decision_reasoning := create_decision_reasoning final_decision
    aggregated_results overall_scoring
  let state := add_agent_reasoning state "decision_maker" decision_reasoning
    (some final_decision.confidence)
    [("decision_status", final_decision.status),
     ("overall_score", toString overall_scoring.overall_score),
     ("risk_level", final_decision.risk_level),
     ("amount_approved", toString (final_decision.amount_approved.getD 0))]
    reasoning_timestamp
  let state := { state with final_decision := some final_decision }
  if final_decision.status = "rejected" then
    update_processing_step state ProcessingStatus.rejected now elapsed
  else
    update_processing_step state ProcessingStatus.completed now elapsed

/-- The exception path of `decision_node` from `decision_node.py`
(lines 19-20 and 99-115): the status update at line 20 followed by the
`except` handler, which appends the error, writes a non-null
`requires_review` final decision and sets the `ERROR` processing step. -/
def decision_node_on_error (state : CreditApplicationState) (e : String)
    (now : String) (elapsed : ℚ) : CreditApplicationState :=
  let state := update_processing_step state ProcessingStatus.decision_making
    now elapsed
  let error_msg := "Decision making failed: " ++ e
  let state := { state with errors := state.errors ++ [error_msg] }
  let state := { state with
    final_decision := some
      { status := "requires_review", confidence := 0,
        amount_approved := none,
        conditions := ["Требуется ручная проверка из-за ошибки системы"],
        reasoning := "Произошла ошибка при принятии решения: " ++ e,
        risk_level := "unknown", expires_at := none } }
  update_processing_step state ProcessingStatus.error now elapsed

/-- The exception path of `legal_node` from
`backend/graph/nodes/legal_node.py` (lines 21 and 78-93): the status update
at line 21 followed by the `except` handler, which appends one error entry
and stores a `status = "error"` legal result with score and confidence 0;
the processing step is left at `LEGAL_CHECKING` and `final_decision` is
untouched. -/
def legal_node_on_error (state : CreditApplicationState) (e : String)
    (now : String) (elapsed : ℚ) : CreditApplicationState :=
  let state := update_processing_step state ProcessingStatus.legal_checking
    now elapsed
  let error_msg := "Legal check failed: " ++ e
  let state := { state with errors := state.errors ++ [error_msg] }
  { state with
    legal_analysis := some
      { status := "error", score := 0, confidence := 0,
        summary := "Ошибка при юридической проверке", details := {},
        recommendations := [], risks := [error_msg] } }

/-! ## Specification-side definitions

Definitions in this section follow the wording of the specification (not the
source); they exist to be compared against the source-derived definitions
above. -/

/-- Spec §4.4 step 1, stated on the aggregated results: the number of
critical failures, i.e. stages with no result or an `error` status (the
spec's `status=ERROR`). -/
def criticalFailuresOf (aggregated_results : AggregatedResults) : ℕ :=
  (if aggregated_results.validation.completed = false ∨
      aggregated_results.validation.status = "error" then 1 else 0) +
  (if aggregated_results.legal.completed = false ∨
      aggregated_results.legal.status = "error" then 1 else 0) +
  (if aggregated_results.risk.completed = false ∨
      aggregated_results.risk.status = "error" then 1 else 0) +
  (if aggregated_results.relevance.completed = false ∨
      aggregated_results.relevance.status = "error" then 1 else 0) +
  (if aggregated_results.financial.completed = false ∨
      aggregated_results.financial.status = "error" then 1 else 0)

/-- Spec §4.4 steps 1-2: the weighted sum under the fixed per-stage weight
table, stages with no result or `error` status contributing score 0. -/
def specWeightedSum (aggregated_results : AggregatedResults) : ℚ :=
  (if aggregated_results.validation.completed ∧
      aggregated_results.validation.status ≠ "error" then
    aggregated_results.validation.score * 0.15 else 0) +
  (if aggregated_results.legal.completed ∧
      aggregated_results.legal.status ≠ "error" then
    aggregated_results.legal.score * 0.20 else 0) +
  (if aggregated_results.risk.completed ∧
      aggregated_results.risk.status ≠ "error" then
    aggregated_results.risk.score * 0.25 else 0) +
  (if aggregated_results.relevance.completed ∧
      aggregated_results.relevance.status ≠ "error" then
    aggregated_results.relevance.score * 0.15 else 0) +
  (if aggregated_results.financial.completed ∧
      aggregated_results.financial.status ≠ "error" then
    aggregated_results.financial.score * 0.25 else 0)

/-- Spec §4.4 step 3: `finalScore = max(0, weightedSum − 0.1 × criticalFailures)`. -/
def specFinalScore (aggregated_results : AggregatedResults) : ℚ :=
  max 0 (specWeightedSum aggregated_results -
    0.1 * (criticalFailuresOf aggregated_results : ℚ))

/-- The closed form that `calculate_overall_scoring` actually computes for
`overall_score`: the weighted mean of the completed stages' scores (the
weight renormalizes over completed stages), scaled by the completion
penalty factor, shifted by the risk adjustments, clamped to `[0, 1]`. -/
def overallScoreClosedForm (aggregated_results : AggregatedResults) : ℚ :=
  let weightedSum : ℚ :=
    (if aggregated_results.validation.completed then
      aggregated_results.validation.score * 0.15 else 0) +
    (if aggregated_results.legal.completed then
      aggregated_results.legal.score * 0.20 else 0) +
    (if aggregated_results.risk.completed then
      aggregated_results.risk.score * 0.25 else 0) +
    (if aggregated_results.relevance.completed then
      aggregated_results.relevance.score * 0.15 else 0) +
    (if aggregated_results.financial.completed then
      aggregated_results.financial.score * 0.25 else 0)
  let totalWeight : ℚ :=
    (if aggregated_results.validation.completed then (0.15 : ℚ) else 0) +
    (if aggregated_results.legal.completed then 0.20 else 0) +
    (if aggregated_results.risk.completed then 0.25 else 0) +
    (if aggregated_results.relevance.completed then 0.15 else 0) +
    (if aggregated_results.financial.completed then 0.25 else 0)
  let mean : ℚ := if totalWeight > 0 then weightedSum / totalWeight else 0
  let penalized : ℚ :=
    if aggregated_results.overall_completion < 1 then
      mean * (1 - (1 - aggregated_results.overall_completion) * 0.3)
    else mean
  max 0 (min 1 (penalized + calculate_risk_adjustments aggregated_results))

/-- The ordering of the four outcome tiers, from the spec's tier order
`rejected < requires_review < conditional < approved`. -/
def tierOf (status : String) : ℕ :=
  if status = "approved" then 3
  else if status = "conditional" then 2
  else if status = "requires_review" then 1
  else 0

/-! ## Pipeline-engine model for resumable execution

Modelled from the spec: the checkpoint/resume loop behind
`create_workflow_with_checkpointing` and `resume_application_processing`
(`workflow.py` lines 101-121 and 378-412) lives in the external `langgraph`
runtime (`workflow.compile(checkpointer=...)` / `workflow.ainvoke(None,
config)`), not in this repository's sources, so it is modelled here from
spec §4.3: a deterministic engine runs a fixed stage sequence one step at a
time; each executed stage appends exactly one audit entry; a checkpoint is
the state after `k` steps; resuming runs the remaining steps from the
checkpointed state. -/

/-- Modelled from the spec: the engine state — the index of the next stage
to run and the audit trail accumulated so far (§4.3, §3 `auditTrail`). -/
structure EngineState where
  stage_index : ℕ
  audit_trail : List String
  deriving DecidableEq, Repr

/-- Modelled from the spec: the initial engine state (`currentStage` = first
stage, empty audit trail). -/
def initEngine : EngineState where
  stage_index := 0
  audit_trail := []

/-- Modelled from the spec: executing the current stage appends exactly one
audit entry and advances `currentStage`; at a terminal index it is a no-op
(§4.3, §5: re-running a terminal application is a no-op). -/
def runStage (stages : List String) (s : EngineState) : EngineState :=
  match stages.get? s.stage_index with
  | some stage =>
    { stage_index := s.stage_index + 1,
      audit_trail := s.audit_trail ++ [stage] }
  | none => s

/-- Modelled from the spec: running the engine for `n` steps, checkpointing
after every step (§4.3 execution contract). -/
def runSteps (stages : List String) (s : EngineState) : ℕ → EngineState
  | 0 => s
  | n + 1 => runSteps stages (runStage stages s) n

/-! ## Concrete inputs used by the witnesses and counterexamples -/

/-- A fresh application state. -/
def baseState : CreditApplicationState :=
  create_initial_state "app-001" {} [] "2024-01-01T00:00:00"

/-- A fully benign stage verdict with top score. -/
def benignAnalysis : AnalysisResult where
  status := "completed"
  score := 1
  confidence := 1
  summary := ""
  details := {}
  recommendations := []
  risks := []

/-- The degraded default review returned when the external LLM call fails
(`decision_node.py` lines 644-652): validation `acceptable`. -/
def llmAcceptable : LLMReview where
  status := "success"
  validation := "acceptable"
  confidence := 0.7
  recommended_adjustments := []
  additional_conditions := []
  risk_concerns := []

/-- An LLM review whose validation rejects the decision. -/
def llmRejected : LLMReview :=
  { llmAcceptable with validation := "rejected" }

/-- A state in which only the risk and financial analyses ran (three stages
— validation, legal, relevance — have no result), both with top scores. -/
def stateThreeMissing : CreditApplicationState :=
  { baseState with
    risk_analysis := some benignAnalysis
    financial_analysis := some benignAnalysis }

/-- A state in which every stage but the financial one completed with top
score. -/
def stateFinancialMissing : CreditApplicationState :=
  { baseState with
    validation_result := some
      { status := "valid", score := 1, errors := [], warnings := [] }
    legal_analysis := some benignAnalysis
    risk_analysis := some benignAnalysis
    relevance_analysis := some benignAnalysis }

/-- A state in which all five stages completed with benign, non-blocking,
non-conditional results. -/
def stateAllBenign : CreditApplicationState :=
  { baseState with
    validation_result := some
      { status := "valid", score := 0.8, errors := [], warnings := [] }
    legal_analysis := some { benignAnalysis with score := 0.8 }
    risk_analysis := some { benignAnalysis with
      details := { overall_risk_level := some "low" } }
    relevance_analysis := some benignAnalysis
    financial_analysis := some { benignAnalysis with
      details := { financial_stability_level := some "good" } }}

/-- A state in which every stage verdict sits exactly at its router's
passing boundary. -/
def stateAtBoundary : CreditApplicationState :=
  { baseState with
    validation_result := some
      { status := "valid", score := 0.6, errors := [], warnings := [] }
    legal_analysis := some { benignAnalysis with
      status := "ok", score := 0.5, confidence := 0.6 }
    risk_analysis := some { benignAnalysis with
      status := "ok", score := 0.4,
      details := { overall_risk_level := some "medium",
                   financial_risk_score := some 0.8,
                   market_risk_score := some 0.7,
                   operational_risk_score := some 0.7 } }
    relevance_analysis := some { benignAnalysis with
      status := "ok", score := 0.5,
      details := { market_relevance_score := some 0.3,
                   economic_impact_score := some 0.4 } }
    financial_analysis := some { benignAnalysis with
      status := "ok", score := 0.5,
      details := { debt_to_equity_ratio := some 3,
                   liquidity_ratio := some 0.5,
                   cash_flow_score := some 0.3,
                   financial_stability_score := some 0.4 } }}

/-- A `Scoring` record whose overall score is 0.55, other fields inert. -/
def scoring055 : Scoring where
  component_scores := []
  weighted_scores := []
  overall_score := 0.55
  completion_penalty := 0
  risk_adjustments := 0
  score_category := "acceptable"

/-- The same `Scoring` record with overall score 0.8 instead. -/
def scoring080 : Scoring :=
  { scoring055 with overall_score := 0.8 }

/-- The same `Scoring` record with overall score 0.4 instead. -/
def scoring040 : Scoring :=
  { scoring055 with overall_score := 0.4 }

/-- The same `Scoring` record with overall score 0.2 instead. -/
def scoring020 : Scoring :=
  { scoring055 with overall_score := 0.2 }

/-- An LLM review whose validation approves the decision. -/
def llmApproved : LLMReview :=
  { llmAcceptable with validation := "approved" }

/-- A form requesting 1,000,000. -/
def formOneMillion : FormData where
  requested_amount := some 1000000
  project_duration_months := some 24

/-! ## Theorems -/

/-- C10: for every aggregated-results input, the overall score computed by
`calculate_overall_scoring` lies in the closed interval `[0, 1]`, no matter
how large the completion penalty or how negative the accumulated risk
adjustments are. -/
theorem overall_score_in_unit_interval
    (aggregated_results : AggregatedResults) :
    0 ≤ (calculate_overall_scoring aggregated_results).overall_score ∧
    (calculate_overall_scoring aggregated_results).overall_score ≤ 1 := by
  refine ⟨?_, ?_⟩ <;> simp only [calculate_overall_scoring]
  · exact le_max_left 0 _
  · exact max_le (by norm_num) (min_le_left _ _)

/-- C9: each per-stage routing function is total — it returns exactly one of
`"continue"`, `"reject"`, `"error"` on every state — and returns `"error"`
whenever the corresponding stage result is absent from the state. -/
theorem routers_total_and_absent_is_error (st : CreditApplicationState) :
    (should_continue_after_validation st = "continue" ∨
     should_continue_after_validation st = "reject" ∨
     should_continue_after_validation st = "error") ∧
    (should_continue_after_legal st = "continue" ∨
     should_continue_after_legal st = "reject" ∨
     should_continue_after_legal st = "error") ∧
    (should_continue_after_risk st = "continue" ∨
     should_continue_after_risk st = "reject" ∨
     should_continue_after_risk st = "error") ∧
    (should_continue_after_relevance st = "continue" ∨
     should_continue_after_relevance st = "reject" ∨
     should_continue_after_relevance st = "error") ∧
    (should_continue_after_financial st = "continue" ∨
     should_continue_after_financial st = "reject" ∨
     should_continue_after_financial st = "error") ∧
    (st.validation_result = none →
      should_continue_after_validation st = "error") ∧
    (st.legal_analysis = none → should_continue_after_legal st = "error") ∧
    (st.risk_analysis = none → should_continue_after_risk st = "error") ∧
    (st.relevance_analysis = none →
      should_continue_after_relevance st = "error") ∧
    (st.financial_analysis = none →
      should_continue_after_financial st = "error") := by
  refine ⟨?_, ?_, ?_, ?_, ?_, ?_, ?_, ?_, ?_, ?_⟩
  · cases h : st.validation_result <;>
      [simp [should_continue_after_validation, h];
       (simp only [should_continue_after_validation, h];
        split_ifs <;> simp)]
  · cases h : st.legal_analysis <;>
      [simp [should_continue_after_legal, h];
       (simp only [should_continue_after_legal, h]; split_ifs <;> simp)]
  · cases h : st.risk_analysis <;>
      [simp [should_continue_after_risk, h];
       (simp only [should_continue_after_risk, h]; split_ifs <;> simp)]
  · cases h : st.relevance_analysis <;>
      [simp [should_continue_after_relevance, h];
       (simp only [should_continue_after_relevance, h];
        split_ifs <;> simp)]
  · cases h : st.financial_analysis <;>
      [simp [should_continue_after_financial, h];
       (simp only [should_continue_after_financial, h];
        split_ifs <;> simp)]
  · intro h; simp [should_continue_after_validation, h]
  · intro h; simp [should_continue_after_legal, h]
  · intro h; simp [should_continue_after_risk, h]
  · intro h; simp [should_continue_after_relevance, h]
  · intro h; simp [should_continue_after_financial, h]

/-- Witness for C9 at a concrete input: on a fresh state, where every stage
result is absent, all five routers return `"error"`. -/
theorem routers_total_and_absent_is_error_witness :
    should_continue_after_validation baseState = "error" ∧
    should_continue_after_legal baseState = "error" ∧
    should_continue_after_risk baseState = "error" ∧
    should_continue_after_relevance baseState = "error" ∧
    should_continue_after_financial baseState = "error" := by
  have h := routers_total_and_absent_is_error baseState
  exact ⟨h.2.2.2.2.2.1 rfl, h.2.2.2.2.2.2.1 rfl, h.2.2.2.2.2.2.2.1 rfl,
    h.2.2.2.2.2.2.2.2.1 rfl, h.2.2.2.2.2.2.2.2.2 rfl⟩

/-- C5: for every stage, a verdict whose score is exactly the stage's
minimum threshold — all other fields non-failing, the other numeric checks
at or inside their own inclusive boundaries — routes `"continue"`, not
`"reject"`: boundaries are inclusive on the pass side for all five routing
functions. -/
theorem router_boundary_inclusive :
    (∀ st v, st.validation_result = some v → pyLower v.status ≠ "error" →
      v.errors.length ≤ 5 → v.score = 0.6 →
      should_continue_after_validation st = "continue") ∧
    (∀ st l, st.legal_analysis = some l → l.risks = [] →
      pyLower l.status ≠ "rejected" → pyLower l.status ≠ "failed" →
      pyLower l.status ≠ "blocked" → l.score = 0.5 → l.confidence ≥ 0.6 →
      should_continue_after_legal st = "continue") ∧
    (∀ st r, st.risk_analysis = some r →
      pyLower (r.details.overall_risk_level.getD "") ≠ "critical" →
      pyLower (r.details.overall_risk_level.getD "") ≠ "очень высокий" →
      pyLower (r.details.overall_risk_level.getD "") ≠ "неприемлемый" →
      r.details.financial_risk_score.getD 0 ≤ 0.8 →
      r.details.market_risk_score.getD 0 ≤ 0.7 →
      r.details.operational_risk_score.getD 0 ≤ 0.7 → r.score = 0.4 →
      should_continue_after_risk st = "continue") ∧
    (∀ st r, st.relevance_analysis = some r →
      r.details.market_relevance_score.getD 0 ≥ 0.3 →
      r.details.economic_impact_score.getD 0 ≥ 0.4 → r.score = 0.5 →
      should_continue_after_relevance st = "continue") ∧
    (∀ st f, st.financial_analysis = some f →
      f.details.debt_to_equity_ratio.getD 0 ≤ 3 →
      f.details.liquidity_ratio.getD 0 ≥ 0.5 →
      f.details.cash_flow_score.getD 0 ≥ 0.3 →
      f.details.financial_stability_score.getD 0 ≥ 0.4 → f.score = 0.5 →
      should_continue_after_financial st = "continue") := by
  refine ⟨?_, ?_, ?_, ?_, ?_⟩
  · intro st v hv hstatus herr hscore
    simp only [should_continue_after_validation, hv]
    rw [if_neg (by simp [hstatus]; omega), if_neg (by rw [hscore]; norm_num)]
  · intro st l hl hrisks h1 h2 h3 hscore hconf
    simp only [should_continue_after_legal, hl, hrisks]
    rw [if_neg (by simp), if_neg (by simp [h1, h2, h3]),
      if_neg (by rw [hscore]; push_neg; constructor <;> norm_num <;>
        linarith)]
  · intro st r h hl1 hl2 hl3 hfin hmar hop hscore
    simp only [should_continue_after_risk, h]
    rw [if_neg (by simp [hl1, hl2, hl3]), if_neg (by push_neg; linarith),
      if_neg ?_, if_neg (by rw [hscore]; norm_num)]
    have hm : decide ((0.7 : ℚ) < r.details.market_risk_score.getD 0)
        = false := decide_eq_false (by push_neg; linarith)
    have ho : decide ((0.7 : ℚ) < r.details.operational_risk_score.getD 0)
        = false := decide_eq_false (by push_neg; linarith)
    simp only [List.filter, gt_iff_lt, hm, ho]
    cases hd : decide ((0.7 : ℚ) < r.details.financial_risk_score.getD 0) <;>
      simp [hd]
  · intro st r h hmar heco hscore
    simp only [should_continue_after_relevance, h]
    rw [if_neg (by push_neg; linarith), if_neg (by push_neg; linarith),
      if_neg (by rw [hscore]; norm_num)]
  · intro st f h hdebt hliq hcash hstab hscore
    simp only [should_continue_after_financial, h]
    rw [if_neg (by push_neg; linarith), if_neg (by push_neg; linarith),
      if_neg (by push_neg; linarith), if_neg (by push_neg; linarith),
      if_neg (by rw [hscore]; norm_num)]

/-- Witness for C5 at a concrete input: on a state where every stage verdict
sits exactly at its passing boundary (validation score 0.6, legal score 0.5,
risk score 0.4, relevance score 0.5, financial score 0.5, with the auxiliary
numeric checks at their own boundaries), every router continues. -/
theorem router_boundary_inclusive_witness :
    should_continue_after_validation stateAtBoundary = "continue" ∧
    should_continue_after_legal stateAtBoundary = "continue" ∧
    should_continue_after_risk stateAtBoundary = "continue" ∧
    should_continue_after_relevance stateAtBoundary = "continue" ∧
    should_continue_after_financial stateAtBoundary = "continue" := by
  have h := router_boundary_inclusive
  refine ⟨h.1 _ _ rfl (by decide) (by decide) (by norm_num),
    h.2.1 _ _ rfl rfl (by decide) (by decide) (by decide) (by norm_num)
      (by norm_num),
    h.2.2.1 _ _ rfl (by decide) (by decide) (by decide) (by norm_num)
      (by norm_num) (by norm_num) (by norm_num),
    h.2.2.2.1 _ _ rfl (by norm_num) (by norm_num) (by norm_num),
    h.2.2.2.2 _ _ rfl (by norm_num) (by norm_num) (by norm_num) (by norm_num)
      (by norm_num)⟩

/-- Helper: `apply_decision_logic` yields preliminary status `"rejected"` on
any input whose overall score is below 0.3. -/
lemma preliminary_rejected_of_low_score (aggregated_results : AggregatedResults)
    (overall_scoring : Scoring) (fd : FormData)
    (h : overall_scoring.overall_score < 0.3) :
    (apply_decision_logic aggregated_results overall_scoring
      fd).preliminary_status = "rejected" := by
  simp only [apply_decision_logic]
  by_cases hb : blocking_factors_of aggregated_results = []
  · rw [if_neg (by simp [hb]),
      if_neg (by rintro ⟨hc, -⟩; linarith),
      if_neg (by rintro ⟨hc, -⟩; linarith),
      if_neg (not_le.mpr (by linarith)),
      if_neg (not_le.mpr (by linarith))]
  · rw [if_pos hb]

/-- Helper: `finalize_decision` never changes a `"rejected"` preliminary
status, whatever the LLM review returns. -/
lemma finalize_keeps_rejected (decision_logic : DecisionLogic)
    (credit_conditions : CreditConditions) (llm_review : LLMReview)
    (aggregated_results : AggregatedResults) (exp : String)
    (h : decision_logic.preliminary_status = "rejected") :
    (finalize_decision decision_logic credit_conditions llm_review
      aggregated_results exp).status = "rejected" := by
  simp only [finalize_decision, h]
  rw [if_neg (by simp), if_neg (by simp)]

/-- C2 (counterexample): on an aggregated input with three critical failures
(the validation, legal and relevance stages have no result) the finalized
decision is `"approved"`, not `"rejected"`: the code has no
`criticalFailures ≥ 3` rejection floor. -/
theorem three_critical_failures_not_rejected :
    3 ≤ criticalFailuresOf (aggregate_analysis_results stateThreeMissing) ∧
    (finalize_decision
      (apply_decision_logic (aggregate_analysis_results stateThreeMissing)
        (calculate_overall_scoring
          (aggregate_analysis_results stateThreeMissing))
        stateThreeMissing.form_data)
      (determine_credit_conditions
        (apply_decision_logic (aggregate_analysis_results stateThreeMissing)
          (calculate_overall_scoring
            (aggregate_analysis_results stateThreeMissing))
          stateThreeMissing.form_data)
        stateThreeMissing.form_data
        (aggregate_analysis_results stateThreeMissing))
      llmAcceptable (aggregate_analysis_results stateThreeMissing)
      "2024-01-31").status = "approved" := by
  constructor
  · norm_num +decide [criticalFailuresOf, aggregate_analysis_results,
      stateThreeMissing, baseState, create_initial_state, benignAnalysis]
  · norm_num +decide [finalize_decision, apply_decision_logic,
      blocking_factors_of, approval_factors_of, conditional_factors_of,
      calculate_overall_scoring, calculate_risk_adjustments,
      determine_credit_conditions, aggregate_analysis_results,
      stateThreeMissing, baseState, create_initial_state, benignAnalysis,
      llmAcceptable]

/-- C2 (amended): if the aggregate overall score is below 0.3 the finalized
decision status is `"rejected"` for every possible LLM review output — the
review can never upgrade such a case out of rejection; no analogous floor
exists for the number of critical failures. -/
theorem low_score_rejected_regardless_of_llm
    (aggregated_results : AggregatedResults) (overall_scoring : Scoring)
    (fd : FormData) (credit_conditions : CreditConditions)
    (llm_review : LLMReview) (exp : String)
    (h : overall_scoring.overall_score < 0.3) :
    (finalize_decision
      (apply_decision_logic aggregated_results overall_scoring fd)
      credit_conditions llm_review aggregated_results exp).status
      = "rejected" :=
  finalize_keeps_rejected _ _ _ _ _
    (preliminary_rejected_of_low_score _ _ _ h)

/-- Witness for the amended C2 at a concrete input: an overall score of 0.2
is finalized as `"rejected"` even when the LLM review's validation says
`"approved"`. -/
theorem low_score_rejected_regardless_of_llm_witness :
    (finalize_decision
      (apply_decision_logic (aggregate_analysis_results stateAllBenign)
        scoring020 formOneMillion)
      (determine_credit_conditions
        (apply_decision_logic (aggregate_analysis_results stateAllBenign)
          scoring020 formOneMillion)
        formOneMillion (aggregate_analysis_results stateAllBenign))
      llmApproved (aggregate_analysis_results stateAllBenign)
      "2024-01-31").status = "rejected" :=
  low_score_rejected_regardless_of_llm _ _ _ _ _ _
    (by norm_num [scoring020, scoring055])

/-- C1 (counterexample): the decision node's exception path produces a state
whose current step is the error status and whose final decision is
non-null (`requires_review`) — refuting "any state whose current step is
the error status has a null final decision". -/
theorem error_step_with_nonnull_decision :
    (decision_node_on_error baseState "boom" "t1" 1).current_step =
      ProcessingStatus.error ∧
    (decision_node_on_error baseState "boom" "t1" 1).final_decision ≠
      none := by
  constructor <;>
    simp +decide [decision_node_on_error, update_processing_step, baseState,
      create_initial_state]

/-- C1 (amended): the decision node always sets a non-null final decision:
on the normal path the final step is `completed` or `rejected`, and on its
exception path the step is the error status while the final decision is
still non-null — so non-null final decision corresponds to the steps
`{completed, rejected, error}`, not `{completed, rejected}`. -/
theorem decision_node_final_decision_and_step
    (state : CreditApplicationState) (llm_review : LLMReview)
    (now : String) (elapsed : ℚ) (ts exp e now2 : String) (el2 : ℚ) :
    ((decision_node state llm_review now elapsed ts exp).final_decision ≠
        none ∧
      ((decision_node state llm_review now elapsed ts exp).current_step =
          ProcessingStatus.completed ∨
        (decision_node state llm_review now elapsed ts exp).current_step =
          ProcessingStatus.rejected)) ∧
    ((decision_node_on_error state e now2 el2).final_decision ≠ none ∧
      (decision_node_on_error state e now2 el2).current_step =
        ProcessingStatus.error) := by
  refine ⟨⟨?_, ?_⟩, ?_, ?_⟩
  · simp only [decision_node]
    split <;> simp +decide [update_processing_step]
  · simp only [decision_node]
    split <;> simp +decide [update_processing_step]
  · simp +decide [decision_node_on_error, update_processing_step]
  · simp +decide [decision_node_on_error, update_processing_step]

/-- C3 (counterexample): after the legal node's exception handler stores its
`status = "error"` result, the router's post-legal decision is `"reject"`,
not `"error"` — the rejection routes to the decision aggregator instead of
halting the pipeline. -/
theorem legal_error_status_routes_reject :
    ((legal_node_on_error baseState "db connection lost" "t1" 1).legal_analysis.map
      AnalysisResult.status) = some "error" ∧
    should_continue_after_legal
      (legal_node_on_error baseState "db connection lost" "t1" 1)
      = "reject" := by
  constructor
  · simp +decide [legal_node_on_error, update_processing_step]
  · norm_num +decide [legal_node_on_error, update_processing_step,
      should_continue_after_legal, strContains, pyLower, containsSub]

/-- C3 (amended): whenever the legal stage's stored result has the error
status written by the legal node's exception handler, the router returns
`"reject"` (routing to the decision aggregator); the handler appends
exactly one entry to the errors list and leaves the final decision
unchanged.  The router returns `"error"` only when the legal result is
absent from the state. -/
theorem legal_error_reject_and_absent_error :
    (∀ (st : CreditApplicationState) (e now : String) (elapsed : ℚ),
      should_continue_after_legal (legal_node_on_error st e now elapsed) =
        "reject" ∧
      (legal_node_on_error st e now elapsed).errors =
        st.errors ++ ["Legal check failed: " ++ e] ∧
      (legal_node_on_error st e now elapsed).final_decision =
        st.final_decision) ∧
    (∀ st : CreditApplicationState, st.legal_analysis = none →
      should_continue_after_legal st = "error") := by
  constructor
  · intro st e now elapsed
    refine ⟨?_, ?_, ?_⟩
    · have hla : (legal_node_on_error st e now elapsed).legal_analysis =
          some { status := "error", score := 0, confidence := 0,
                 summary := "Ошибка при юридической проверке", details := {},
                 recommendations := [],
                 risks := ["Legal check failed: " ++ e] } := by
        simp +decide [legal_node_on_error, update_processing_step]
      simp only [should_continue_after_legal, hla]
      split_ifs with h1 h2 h3
      · rfl
      · exact absurd h2 (by decide)
      · rfl
      · exact absurd (by norm_num : ((0 : ℚ) < 0.5 ∨ (0 : ℚ) < 0.6)) h3
    · simp +decide [legal_node_on_error, update_processing_step]
    · simp +decide [legal_node_on_error, update_processing_step]
  · intro st h
    simp [should_continue_after_legal, h]

/-- Witness for the amended C3 at a concrete input: a failed legal check on
a fresh state routes `"reject"` with one new error entry and a null final
decision, and on the fresh state itself (absent legal result) the router
returns `"error"`. -/
theorem legal_error_reject_and_absent_error_witness :
    should_continue_after_legal
      (legal_node_on_error baseState "timeout" "t1" 1) = "reject" ∧
    (legal_node_on_error baseState "timeout" "t1" 1).errors =
      baseState.errors ++ ["Legal check failed: timeout"] ∧
    (legal_node_on_error baseState "timeout" "t1" 1).final_decision =
      baseState.final_decision ∧
    should_continue_after_legal baseState = "error" := by
  have h := legal_error_reject_and_absent_error
  obtain ⟨ha, hb, hc⟩ := h.1 baseState "timeout" "t1" 1
  exact ⟨ha, hb, hc, h.2 baseState rfl⟩

/-- C4 (counterexample): on a state in which every stage but the financial
one completed with top score, the overall score the aggregator computes
differs from the spec's `max(0, weightedSum − 0.1 × criticalFailures)`
(0.94 versus 0.65): the aggregator renormalizes the weighted mean and
applies a multiplicative completion penalty instead. -/
theorem overall_score_differs_from_spec_formula :
    (calculate_overall_scoring
      (aggregate_analysis_results stateFinancialMissing)).overall_score ≠
      specFinalScore (aggregate_analysis_results stateFinancialMissing) ∧
    (calculate_overall_scoring
      (aggregate_analysis_results stateFinancialMissing)).overall_score =
      0.94 ∧
    specFinalScore (aggregate_analysis_results stateFinancialMissing) =
      0.65 := by
  have h1 : (calculate_overall_scoring
      (aggregate_analysis_results stateFinancialMissing)).overall_score =
      0.94 := by
    norm_num +decide [calculate_overall_scoring, calculate_risk_adjustments,
      aggregate_analysis_results, stateFinancialMissing, baseState,
      create_initial_state, benignAnalysis]
  have h2 : specFinalScore (aggregate_analysis_results
      stateFinancialMissing) = 0.65 := by
    norm_num +decide [specFinalScore, specWeightedSum, criticalFailuresOf,
      aggregate_analysis_results, stateFinancialMissing, baseState,
      create_initial_state, benignAnalysis]
  exact ⟨by rw [h1, h2]; norm_num, h1, h2⟩

/-- C4 (amended): for every aggregated input, the overall score equals
`clamp_[0,1]( weightedMean × penaltyFactor + riskAdjustments )`, where
`weightedMean` is the weighted sum of completed stages' scores divided by
the total weight of the completed stages, `penaltyFactor` is
`1 − 0.3 × (1 − completion)` when completion is partial, and the additive
risk adjustments come from `calculate_risk_adjustments` — there is no
`criticalFailures` counter and no `−0.1 ×` penalty term. -/
theorem overall_score_closed_form_eq (aggregated_results : AggregatedResults) :
    (calculate_overall_scoring aggregated_results).overall_score =
      overallScoreClosedForm aggregated_results := by
  simp only [calculate_overall_scoring, overallScoreClosedForm,
    List.map_cons, List.map_nil, List.sum_cons, List.sum_nil]
  generalize (if aggregated_results.validation.completed then
    aggregated_results.validation.score * 0.15 else 0) = a
  generalize (if aggregated_results.legal.completed then
    aggregated_results.legal.score * 0.20 else 0) = b
  generalize (if aggregated_results.risk.completed then
    aggregated_results.risk.score * 0.25 else 0) = c
  generalize (if aggregated_results.relevance.completed then
    aggregated_results.relevance.score * 0.15 else 0) = d
  generalize (if aggregated_results.financial.completed then
    aggregated_results.financial.score * 0.25 else 0) = e
  generalize (if aggregated_results.validation.completed then (0.15 : ℚ)
    else 0) = u
  generalize (if aggregated_results.legal.completed then (0.20 : ℚ)
    else 0) = v
  generalize (if aggregated_results.risk.completed then (0.25 : ℚ)
    else 0) = w
  generalize (if aggregated_results.relevance.completed then (0.15 : ℚ)
    else 0) = x
  generalize (if aggregated_results.financial.completed then (0.25 : ℚ)
    else 0) = y
  rw [show a + (b + (c + (d + (e + 0)))) = a + b + c + d + e by ring,
    show u + (v + (w + (x + (y + 0)))) = u + v + w + x + y by ring]
  split_ifs <;> rfl

/-- C6 (counterexample): two runs identical except for the overall score
(0.55 versus 0.8), both reviewed by an LLM whose validation is
`"rejected"`: the higher score finalizes as `requires_review` (tier 1)
while the lower score finalizes as `conditional` (tier 2) — the finalized
tier is not monotone in the score. -/
theorem final_tier_not_monotone :
    scoring055.overall_score < scoring080.overall_score ∧
    tierOf (finalize_decision
      (apply_decision_logic (aggregate_analysis_results stateAllBenign)
        scoring080 formOneMillion)
      (determine_credit_conditions
        (apply_decision_logic (aggregate_analysis_results stateAllBenign)
          scoring080 formOneMillion)
        formOneMillion (aggregate_analysis_results stateAllBenign))
      llmRejected (aggregate_analysis_results stateAllBenign)
      "2024-01-31").status <
    tierOf (finalize_decision
      (apply_decision_logic (aggregate_analysis_results stateAllBenign)
        scoring055 formOneMillion)
      (determine_credit_conditions
        (apply_decision_logic (aggregate_analysis_results stateAllBenign)
          scoring055 formOneMillion)
        formOneMillion (aggregate_analysis_results stateAllBenign))
      llmRejected (aggregate_analysis_results stateAllBenign)
      "2024-01-31").status := by
  constructor
  · norm_num [scoring055, scoring080]
  · norm_num +decide [tierOf, finalize_decision, apply_decision_logic,
      blocking_factors_of, approval_factors_of, conditional_factors_of,
      determine_credit_conditions, aggregate_analysis_results,
      stateAllBenign, baseState, create_initial_state, benignAnalysis,
      llmRejected, llmAcceptable, scoring055, scoring080, formOneMillion]

/-- C6 (amended): the preliminary tier assigned by `apply_decision_logic`
is monotone in the overall score for fixed aggregated results: a higher
score is never mapped to a strictly worse preliminary tier under
`rejected < requires_review < conditional < approved`.  (The finalized
status after the LLM merge is not monotone — see the counterexample.) -/
theorem preliminary_tier_monotone (aggregated_results : AggregatedResults)
    (fd : FormData) (s1 s2 : Scoring)
    (h : s1.overall_score ≤ s2.overall_score) :
    tierOf (apply_decision_logic aggregated_results s1
        fd).preliminary_status ≤
      tierOf (apply_decision_logic aggregated_results s2
        fd).preliminary_status := by
  simp only [apply_decision_logic]
  by_cases hb : blocking_factors_of aggregated_results = []
  · have hbn : ¬blocking_factors_of aggregated_results ≠ [] := by simp [hb]
    simp only [if_neg hbn]
    split_ifs <;> simp_all [tierOf] <;> linarith
  · have hbn : blocking_factors_of aggregated_results ≠ [] := hb
    simp only [if_pos hbn]
    exact le_rfl

/-- Witness for the amended C6 at a concrete input: with fixed benign
aggregated results, the preliminary tier at score 0.55 is at most the
preliminary tier at score 0.8. -/
theorem preliminary_tier_monotone_witness :
    tierOf (apply_decision_logic (aggregate_analysis_results stateAllBenign)
        scoring055 formOneMillion).preliminary_status ≤
      tierOf (apply_decision_logic (aggregate_analysis_results stateAllBenign)
        scoring080 formOneMillion).preliminary_status :=
  preliminary_tier_monotone _ _ _ _
    (by norm_num [scoring055, scoring080])

/-- Helper: running `m + n` engine steps is running `m` steps and then `n`
steps from the intermediate (checkpointed) state. -/
lemma runSteps_add (stages : List String) (s : EngineState) (m n : ℕ) :
    runSteps stages s (m + n) = runSteps stages (runSteps stages s m) n := by
  induction m generalizing s with
  | zero => rw [Nat.zero_add]; rfl
  | succ m ih =>
    have hmn : m + 1 + n = (m + n) + 1 := by omega
    rw [hmn]
    show runSteps stages (runStage stages s) (m + n) = _
    rw [ih]
    rfl

/-- Helper: from a state whose next-stage index is in range, `k` engine
steps advance the index by `k` and append exactly the next `k` stage names
to the audit trail. -/
lemma runSteps_spec (stages : List String) (k : ℕ) :
    ∀ s : EngineState, s.stage_index + k ≤ stages.length →
      (runSteps stages s k).stage_index = s.stage_index + k ∧
      (runSteps stages s k).audit_trail =
        s.audit_trail ++ (stages.drop s.stage_index).take k := by
  induction k with
  | zero => intro s hs; simp [runSteps]
  | succ k ih =>
    intro s hs
    have hlt : s.stage_index < stages.length := by omega
    have hget : stages.get? s.stage_index =
        some (stages.get ⟨s.stage_index, hlt⟩) := List.get?_eq_get hlt
    have hrun : runStage stages s =
        { stage_index := s.stage_index + 1,
          audit_trail :=
            s.audit_trail ++ [stages.get ⟨s.stage_index, hlt⟩] } := by
      rw [runStage, hget]
    show (runSteps stages (runStage stages s) k).stage_index =
        s.stage_index + (k + 1) ∧
      (runSteps stages (runStage stages s) k).audit_trail =
        s.audit_trail ++ (stages.drop s.stage_index).take (k + 1)
    rw [hrun]
    obtain ⟨h1, h2⟩ := ih
      { stage_index := s.stage_index + 1,
        audit_trail :=
          s.audit_trail ++ [stages.get ⟨s.stage_index, hlt⟩] }
      (by dsimp only; omega)
    rw [h1, h2]
    dsimp only
    refine ⟨by omega, ?_⟩
    rw [List.append_assoc, List.singleton_append,
      List.drop_eq_get_cons hlt, List.take_succ_cons]

/-- C7 (spec-modelled): resuming from the checkpoint taken after `k` of the
stages reaches exactly the state of an uninterrupted run — no completed
stage is re-executed and no duplicate audit entry appears — and the audit
trail at the checkpoint is precisely the uninterrupted run's audit trail up
to the resume point; a full run audits each stage exactly once, in order. -/
theorem resume_from_checkpoint_equals_uninterrupted (stages : List String)
    (k : ℕ) (h : k ≤ stages.length) :
    runSteps stages (runSteps stages initEngine k) (stages.length - k) =
      runSteps stages initEngine stages.length ∧
    (runSteps stages initEngine k).audit_trail =
      (runSteps stages initEngine stages.length).audit_trail.take k ∧
    (runSteps stages initEngine stages.length).audit_trail = stages := by
  have hfull := runSteps_spec stages stages.length initEngine
    (by simp [initEngine])
  have hk := runSteps_spec stages k initEngine (by simp [initEngine]; omega)
  refine ⟨?_, ?_, ?_⟩
  · rw [← runSteps_add]
    congr 1
    omega
  · rw [hk.2, hfull.2]
    simp [initEngine]
  · rw [hfull.2]
    simp [initEngine]

/-- Witness for C7 at a concrete input: a three-stage pipeline checkpointed
after two stages resumes to the uninterrupted final state, with the audit
prefix intact. -/
theorem resume_from_checkpoint_equals_uninterrupted_witness :
    runSteps ["validation", "legal", "risk"]
        (runSteps ["validation", "legal", "risk"] initEngine 2)
        (["validation", "legal", "risk"].length - 2) =
      runSteps ["validation", "legal", "risk"] initEngine
        ["validation", "legal", "risk"].length ∧
    (runSteps ["validation", "legal", "risk"] initEngine 2).audit_trail =
      (runSteps ["validation", "legal", "risk"] initEngine
        ["validation", "legal", "risk"].length).audit_trail.take 2 ∧
    (runSteps ["validation", "legal", "risk"] initEngine
      ["validation", "legal", "risk"].length).audit_trail =
        ["validation", "legal", "risk"] :=
  resume_from_checkpoint_equals_uninterrupted
    ["validation", "legal", "risk"] 2 (by norm_num)

/-- C8 (counterexample): a decision whose preliminary status is
`requires_review` (overall score 0.4 on benign aggregated results, a
1,000,000 request) finalizes as `requires_review` with an approved amount
of 0 — not the claimed ≈60% of the requested amount — because credit
conditions are only computed for approved/conditional preliminary
statuses. -/
theorem requires_review_amount_is_zero :
    (finalize_decision
      (apply_decision_logic (aggregate_analysis_results stateAllBenign)
        scoring040 formOneMillion)
      (determine_credit_conditions
        (apply_decision_logic (aggregate_analysis_results stateAllBenign)
          scoring040 formOneMillion)
        formOneMillion (aggregate_analysis_results stateAllBenign))
      llmAcceptable (aggregate_analysis_results stateAllBenign)
      "2024-01-31").status = "requires_review" ∧
    (finalize_decision
      (apply_decision_logic (aggregate_analysis_results stateAllBenign)
        scoring040 formOneMillion)
      (determine_credit_conditions
        (apply_decision_logic (aggregate_analysis_results stateAllBenign)
          scoring040 formOneMillion)
        formOneMillion (aggregate_analysis_results stateAllBenign))
      llmAcceptable (aggregate_analysis_results stateAllBenign)
      "2024-01-31").amount_approved = some 0 ∧
    formOneMillion.requested_amount.getD 0 = 1000000 ∧
    (0 : ℚ) ≠ 0.6 * 1000000 := by
  refine ⟨?_, ?_, by norm_num [formOneMillion], by norm_num⟩ <;>
    norm_num +decide [finalize_decision, apply_decision_logic,
      blocking_factors_of, approval_factors_of, conditional_factors_of,
      determine_credit_conditions, aggregate_analysis_results,
      stateAllBenign, baseState, create_initial_state, benignAnalysis,
      llmAcceptable, scoring040, scoring055, formOneMillion]

/-- C8 (amended): a finalized `rejected` decision carries no amount
(`None`); any non-rejected finalized decision carries exactly the
conditions' approved amount; the conditions give amount 0 (ratio 0) unless
the preliminary status is approved or conditional; and the approved amount
always equals the requested amount times the approval ratio, with the
ratio capped at 1 — it is not the fixed 100%/80%/60% schedule. -/
theorem approved_amount_rules (decision_logic : DecisionLogic)
    (credit_conditions : CreditConditions) (llm_review : LLMReview)
    (aggregated_results : AggregatedResults) (fd : FormData) (exp : String) :
    ((finalize_decision decision_logic credit_conditions llm_review
        aggregated_results exp).status = "rejected" →
      (finalize_decision decision_logic credit_conditions llm_review
        aggregated_results exp).amount_approved = none) ∧
    ((finalize_decision decision_logic credit_conditions llm_review
        aggregated_results exp).status ≠ "rejected" →
      (finalize_decision decision_logic credit_conditions llm_review
        aggregated_results exp).amount_approved =
        some credit_conditions.approved_amount) ∧
    (¬(decision_logic.preliminary_status = "approved" ∨
        decision_logic.preliminary_status = "conditional") →
      (determine_credit_conditions decision_logic fd
        aggregated_results).approved_amount = 0 ∧
      (determine_credit_conditions decision_logic fd
        aggregated_results).approval_ratio = 0) ∧
    ((determine_credit_conditions decision_logic fd
        aggregated_results).approved_amount =
      fd.requested_amount.getD 0 *
        (determine_credit_conditions decision_logic fd
          aggregated_results).approval_ratio) ∧
    ((determine_credit_conditions decision_logic fd
        aggregated_results).approval_ratio ≤ 1) := by
  refine ⟨?_, ?_, ?_, ?_, ?_⟩
  · intro h
    simp only [finalize_decision] at h ⊢
    simp [h]
  · intro h
    simp only [finalize_decision] at h ⊢
    rw [if_pos h]
  · intro h
    simp only [determine_credit_conditions]
    rw [if_neg h]
    exact ⟨rfl, rfl⟩
  · by_cases h : decision_logic.preliminary_status = "approved" ∨
        decision_logic.preliminary_status = "conditional"
    · simp only [determine_credit_conditions]
      rw [if_pos h]
    · simp only [determine_credit_conditions]
      rw [if_neg h]
      simp
  · by_cases h : decision_logic.preliminary_status = "approved" ∨
        decision_logic.preliminary_status = "conditional"
    · simp only [determine_credit_conditions]
      rw [if_pos h]
      exact min_le_left _ _
    · simp only [determine_credit_conditions]
      rw [if_neg h]
      norm_num

/-- Witness for the amended C8 at concrete inputs: a rejected finalized
decision carries no amount, and a non-approved/non-conditional preliminary
status yields conditions with amount and ratio 0. -/
theorem approved_amount_rules_witness :
    (finalize_decision
      (apply_decision_logic (aggregate_analysis_results stateAllBenign)
        scoring020 formOneMillion)
      (determine_credit_conditions
        (apply_decision_logic (aggregate_analysis_results stateAllBenign)
          scoring020 formOneMillion)
        formOneMillion (aggregate_analysis_results stateAllBenign))
      llmAcceptable (aggregate_analysis_results stateAllBenign)
      "2024-01-31").amount_approved = none := by
  have hstat : (finalize_decision
      (apply_decision_logic (aggregate_analysis_results stateAllBenign)
        scoring020 formOneMillion)
      (determine_credit_conditions
        (apply_decision_logic (aggregate_analysis_results stateAllBenign)
          scoring020 formOneMillion)
        formOneMillion (aggregate_analysis_results stateAllBenign))
      llmAcceptable (aggregate_analysis_results stateAllBenign)
      "2024-01-31").status = "rejected" :=
    finalize_keeps_rejected _ _ _ _ _
      (preliminary_rejected_of_low_score _ _ _
        (by norm_num [scoring020, scoring055]))
  exact (approved_amount_rules _ _ _ _ formOneMillion _).1 hstat

end CreditAnalysis
